import Mathlib

/-!
Verification of the OAuth token lifecycle of the google-calendar MCP server
(`src/index.ts`): the token load/refresh path `loadSavedTokens`, the
`oauth2Client.on` token-update handler, the tool-call authentication gate,
and the startup sequence in `main`.

Modelling conventions:
* A persisted token record is a `TokenRecord`: the three named fields the
  code inspects (`access_token`, `refresh_token`, `expiry_date`) plus a
  key/value list for arbitrary provider-specific extra fields.
* JavaScript truthiness of the inspected values is modelled explicitly:
  a string field is truthy when present and nonempty, a numeric field when
  present and nonzero (`expiryDate ? ... : true` in the source).
* The token file's state when read is a `FileContent`: absent, unreadable
  or unparsable (JSON.parse throws), parsable but not a truthy object
  (`!tokens || typeof tokens !== 'object'`), or a parsed record.
* Effects are made explicit in the result: file writes carry the record
  written and the numeric permission mode passed to `fs.writeFile`,
  `refreshCalls` counts calls to `oauth2Client.refreshAccessToken()`,
  `installed` records each `oauth2Client.setCredentials` call in order,
  and `logs` collects the `console.error` messages (by their literal
  prefix, without the appended error object).
* The outcome of the external `refreshAccessToken()` network call is a
  parameter: `none` when the call throws, `some nt` when it resolves with
  credentials `nt`.
-/

namespace GCalMcp

/-- A persisted OAuth token record: the fields `index.ts` inspects by name,
plus arbitrary extra fields round-tripped through JSON. -/
structure TokenRecord where
  access_token : Option String
  refresh_token : Option String
  expiry_date : Option Int
  extras : List (String × String)
deriving Repr, DecidableEq

/-- JavaScript truthiness of an optional string field: present and nonempty. -/
def truthyStr : Option String → Bool
  | some s => s ≠ ""
  | none => false

/-- JavaScript truthiness of an optional numeric field: present and nonzero. -/
def truthyInt : Option Int → Bool
  | some e => e ≠ 0
  | none => false

/-- `tokens.refresh_token` used as a boolean in `if (isExpired && tokens.refresh_token)`. -/
def hasRefreshToken (t : TokenRecord) : Bool :=
  truthyStr t.refresh_token

/-- The expiry decision of `loadSavedTokens`:
`const isExpired = expiryDate ? Date.now() >= (expiryDate - 5 * 60 * 1000) : true;`
A falsy `expiry_date` (absent or zero) is treated as expired. -/
def isExpiredCheck (t : TokenRecord) (now : Int) : Bool :=
  if truthyInt t.expiry_date then
    decide (t.expiry_date.getD 0 - 5 * 60 * 1000 ≤ now)
  else
    true

/-- The state of the token file as seen by a read-and-parse. -/
inductive FileContent where
  | missing
  | unparsable
  | invalid
  | record (t : TokenRecord)
deriving Repr, DecidableEq

/-- The permission mode both `fs.writeFile` calls pass: `\x7b mode: 0o600 \x7d`. -/
def tokenFileMode : Nat := 0o600

/-- The observable outcome of one `loadSavedTokens()` run: its boolean
return value, the file writes (record, mode) it performed, how many times it
called `refreshAccessToken()`, each `setCredentials` argument in order, and
the `console.error` messages it printed. -/
structure LoadResult where
  ok : Bool
  writes : List (TokenRecord × Nat)
  refreshCalls : Nat
  installed : List TokenRecord
  logs : List String
deriving Repr, DecidableEq

/-- Whether a `refreshAccessToken()` outcome counts as a successful refresh
for `loadSavedTokens`: the call resolved and its credentials carry a truthy
`access_token` (otherwise the code throws
`'Received invalid tokens during refresh'`, caught by the same handler as a
rejected call). -/
def refreshSucceeds : Option TokenRecord → Bool
  | some nt => truthyStr nt.access_token
  | none => false

/-- `loadSavedTokens` from `src/index.ts` (lines 128-185), over the file
state `file`, the clock `now` (epoch milliseconds), and the outcome
`refreshResult` of the external `refreshAccessToken()` call.

Source shape: missing file logs `'No token file found'` and returns false;
a JSON.parse throw is caught by the outer handler (`'Error loading tokens:'`);
a parsed falsy or non-object value logs `'Invalid token format'`; otherwise
the record is installed via `setCredentials`, and if it is expired (within
the 5-minute margin) and carries a truthy `refresh_token` the code refreshes:
on success it writes the refresh response verbatim with mode `0o600` and
installs it, on failure (rejected call or missing `access_token`) it logs
`'Error refreshing auth token:'` and returns false. All surviving paths
return true. -/
def loadSavedTokens (file : FileContent) (now : Int)
    (refreshResult : Option TokenRecord) : LoadResult :=
  match file with
  | .missing => ⟨false, [], 0, [], ["No token file found"]⟩
  | .unparsable => ⟨false, [], 0, [], ["Error loading tokens:"]⟩
  | .invalid => ⟨false, [], 0, [], ["Invalid token format"]⟩
  | .record t =>
    if isExpiredCheck t now && hasRefreshToken t then
      match refreshResult with
      | none => ⟨false, [], 1, [t], ["Error refreshing auth token:"]⟩
      | some nt =>
        if truthyStr nt.access_token then
          ⟨true, [(nt, tokenFileMode)], 1, [t, nt], []⟩
        else
          ⟨false, [], 1, [t], ["Error refreshing auth token:"]⟩
    else
      ⟨true, [], 0, [t], []⟩

/-- Overlay of one optional field by a JavaScript object spread: the second
object's field wins when present. -/
def overrideField {α : Type} (cur nt : Option α) : Option α :=
  match nt with
  | some v => some v
  | none => cur

/-- Overlay of the extra fields by a JavaScript object spread: keys of `nt`
win over keys of `cur`. -/
def overrideExtras (cur nt : List (String × String)) : List (String × String) :=
  cur.filter (fun p => !(nt.any (fun q => q.1 == p.1))) ++ nt

/-- The merge performed by the `oauth2Client.on` token-update handler:
`\x7b ...currentTokens, ...newTokens, refresh_token: newTokens.refresh_token || currentTokens.refresh_token \x7d`.
The explicit `refresh_token` property overrides the spreads: the update's
value when truthy, else whatever the stored record had. -/
def mergeTokens (cur nt : TokenRecord) : TokenRecord where
  access_token := overrideField cur.access_token nt.access_token
  refresh_token := if truthyStr nt.refresh_token then nt.refresh_token else cur.refresh_token
  expiry_date := overrideField cur.expiry_date nt.expiry_date
  extras := overrideExtras cur.extras nt.extras

/-- The observable outcome of one invocation of the token-update handler. -/
structure HandlerResult where
  writes : List (TokenRecord × Nat)
  logs : List String
deriving Repr, DecidableEq

/-- The `oauth2Client.on` token-update handler of `src/index.ts`
(lines 166-178): it re-reads and parses the token file, overlays the
notification's partial record with `refresh_token` carried forward, and
writes the merged record with mode `0o600`. Any failure while reading,
parsing or accessing the current record is caught and logged
(`'Error saving updated tokens:'`) with no write. -/
def onTokensHandler (file : FileContent) (nt : TokenRecord) : HandlerResult :=
  match file with
  | .record cur => ⟨[(mergeTokens cur nt, tokenFileMode)], []⟩
  | _ => ⟨[], ["Error saving updated tokens:"]⟩

/-- The headless branch of the authentication-required message in the
`CallToolRequestSchema` handler. -/
def headlessAuthMessage : String :=
  "Authentication required. Please run \"npm run auth\" to authenticate with Google Calendar."

/-- The interactive branch of the authentication-required message, built
from the `port` constant by template interpolation. -/
def interactiveAuthMessage (port : Nat) : String :=
  "Authentication required. Please visit http://localhost:" ++ toString port
    ++ " to authenticate with Google Calendar. If this port is unavailable, the server will try ports 3001-3004."

/-- The message selection of the `CallToolRequestSchema` handler:
`const port = authServer ? 3000 : null;` followed by the ternary on `port`.
`authServerConstructed` is whether the global `authServer` has been
assigned; `boundPort` is the port the auth server actually bound, which the
source never consults (the literal `3000` is used). -/
def authRequiredMessage (authServerConstructed : Bool) (boundPort : Nat) : String :=
  if authServerConstructed then interactiveAuthMessage 3000 else headlessAuthMessage

/-- The calendar API method each known tool name invokes in the dispatch
switch; unknown names invoke none (`throw new Error('Unknown tool: ...')`). -/
def calendarOpsFor (name : String) : List String :=
  if name = "list-calendars" then ["calendarList.list"]
  else if name = "list-events" then ["events.list"]
  else if name = "create-event" then ["events.insert"]
  else if name = "update-event" then ["events.patch"]
  else if name = "delete-event" then ["events.delete"]
  else if name = "list-colors" then ["colors.get"]
  else []

/-- The observable outcome of one `CallToolRequestSchema` invocation: the
error it throws (if any) and the calendar API operations it performs. The
bodies of the per-tool cases (argument validation, response formatting) are
out of scope; only whether a calendar API call is reached is modelled. -/
structure CallOutcome where
  error : Option String
  calendarOps : List String
deriving Repr, DecidableEq

/-- The `CallToolRequestSchema` handler of `src/index.ts` (lines 361-518):
the first statement evaluates `tokenManager.validateTokens()` (its boolean
outcome is the parameter `validated`); when false the handler throws the
authentication-required message and performs no calendar API call; otherwise
it dispatches on the tool name. -/
def handleCallTool (validated : Bool) (authServerConstructed : Bool)
    (boundPort : Nat) (name : String) : CallOutcome :=
  if !validated then
    ⟨some (authRequiredMessage authServerConstructed boundPort), []⟩
  else if calendarOpsFor name = [] then
    ⟨some ("Unknown tool: " ++ name), []⟩
  else
    ⟨none, calendarOpsFor name⟩

/-- The startup sequence of `main()` in `src/index.ts` (lines 525-552),
abstracted to the decisions it branches on: whether the OAuth client
configuration loads (`configOk`), whether `tokenManager.loadSavedTokens()`
returns true (`loadOk`), and whether `authServer.start()` succeeds
(`authStartOk`). Returns `none` when the process exits during startup, and
`some b` on a successful startup where `b` is whether the global
`authServer` has been assigned — the assignment happens unconditionally
before the `loadSavedTokens` check. -/
def mainStartup (configOk loadOk authStartOk : Bool) : Option Bool :=
  if configOk then
    if loadOk then some true
    else if authStartOk then some true
    else none
  else
    none

/-! Helper lemmas shared by the claim theorems. -/

/-- Overlaying no extra fields leaves the stored extra fields unchanged. -/
lemma overrideExtras_nil (l : List (String × String)) : overrideExtras l [] = l := by
  simp [overrideExtras]

/-- Under a nonnegative clock, the expiry decision for a record carrying
`expiry_date = some e` is exactly `e - 300000 ≤ now` (a zero `e` is falsy
and forced expired, which agrees with the formula since `now ≥ 0`). -/
lemma isExpiredCheck_some (t : TokenRecord) (e now : Int)
    (he : t.expiry_date = some e) (hnow : 0 ≤ now) :
    isExpiredCheck t now = decide (e - 5 * 60 * 1000 ≤ now) := by
  by_cases h0 : e = 0
  · subst h0
    have hle : (0 : Int) - 5 * 60 * 1000 ≤ now := by omega
    simp [isExpiredCheck, truthyInt, he, hle]
    omega
  · simp [isExpiredCheck, truthyInt, he, h0]

/-- Claim C8: for every loaded credential whose `expiry_date` is more than
5 minutes in the future of a nonnegative clock, `loadSavedTokens` returns
true immediately, performs no refresh call and no file write, and only
installs the loaded record. -/
theorem c8_fresh_credential_no_side_effects (t : TokenRecord) (e now : Int)
    (rr : Option TokenRecord) (he : t.expiry_date = some e) (hnow : 0 ≤ now)
    (hfut : now < e - 5 * 60 * 1000) :
    loadSavedTokens (.record t) now rr = ⟨true, [], 0, [t], []⟩ := by
  have hx : isExpiredCheck t now = false := by
    rw [isExpiredCheck_some t e now he hnow]
    simp
    omega
  simp [loadSavedTokens, hx]

/-- Closed witness for C8 at a concrete input: a record expiring at
epoch-millisecond 1000000 read at time 100000 is accepted with no side
effects. -/
theorem c8_fresh_credential_no_side_effects_witness :
    loadSavedTokens (.record ⟨some "tok", some "r", some 1000000, []⟩) 100000 none
      = ⟨true, [], 0, [⟨some "tok", some "r", some 1000000, []⟩], []⟩ :=
  c8_fresh_credential_no_side_effects _ 1000000 100000 none rfl (by decide) (by decide)

/-- Claim C9: a loaded record with no `expiry_date` field is treated as
expired (`expiryDate ? ... : true` takes the `true` branch), so it is never
accepted as non-expired, and a refresh is attempted exactly once whenever a
refresh token is present. -/
theorem c9_missing_expiry_treated_expired (t : TokenRecord) (now : Int)
    (rr : Option TokenRecord) (he : t.expiry_date = none) :
    isExpiredCheck t now = true ∧
    (hasRefreshToken t = true →
      (loadSavedTokens (.record t) now rr).refreshCalls = 1) := by
  have hx : isExpiredCheck t now = true := by
    simp [isExpiredCheck, truthyInt, he]
  refine ⟨hx, fun hr => ?_⟩
  cases rr with
  | none => simp [loadSavedTokens, hx, hr]
  | some nt =>
    by_cases ha : truthyStr nt.access_token <;>
      simp [loadSavedTokens, hx, hr, ha]

/-- Closed witness for C9: a record with no expiry date and a refresh token
is treated as expired and triggers one refresh call. -/
theorem c9_missing_expiry_treated_expired_witness :
    isExpiredCheck ⟨some "tok", some "r", none, []⟩ 0 = true ∧
    (loadSavedTokens (.record ⟨some "tok", some "r", none, []⟩) 0 none).refreshCalls = 1 := by
  have h := c9_missing_expiry_treated_expired ⟨some "tok", some "r", none, []⟩ 0 none rfl
  exact ⟨h.1, h.2 (by decide)⟩

/-- Claim C6: the load path resolves every file-level failure to the
boolean false rather than throwing: a missing file returns false (logging
`'No token file found'`), unreadable or unparsable content returns false
through the outer catch (logging `'Error loading tokens:'`), a parsed
non-object returns false (logging `'Invalid token format'`), and the
parse-failure logs are distinct from the not-found log. -/
theorem c6_load_errors_resolve_to_false (now : Int) (rr : Option TokenRecord) :
    loadSavedTokens .missing now rr = ⟨false, [], 0, [], ["No token file found"]⟩ ∧
    loadSavedTokens .unparsable now rr = ⟨false, [], 0, [], ["Error loading tokens:"]⟩ ∧
    loadSavedTokens .invalid now rr = ⟨false, [], 0, [], ["Invalid token format"]⟩ ∧
    ("Error loading tokens:" : String) ≠ "No token file found" ∧
    ("Invalid token format" : String) ≠ "No token file found" :=
  ⟨rfl, rfl, rfl, by decide, by decide⟩

/-- Claim C7: every file write performed by the load/refresh path and by
the token-update handler carries the permission mode `0o600`; no modelled
code path writes the record with any other mode. -/
theorem c7_all_writes_mode_0600 (file : FileContent) (now : Int)
    (rr : Option TokenRecord) (nt : TokenRecord) :
    ((loadSavedTokens file now rr).writes.all (fun w => w.2 == tokenFileMode)) = true ∧
    ((onTokensHandler file nt).writes.all (fun w => w.2 == tokenFileMode)) = true := by
  constructor
  · cases file with
    | record t =>
      by_cases hx : (isExpiredCheck t now && hasRefreshToken t) = true
      · cases rr with
        | none => simp [loadSavedTokens, hx]
        | some r =>
          by_cases ha : truthyStr r.access_token <;>
            simp [loadSavedTokens, hx, ha]
      · simp [loadSavedTokens, hx]
    | missing => simp [loadSavedTokens]
    | unparsable => simp [loadSavedTokens]
    | invalid => simp [loadSavedTokens]
  · cases file with
    | record t => simp [onTokensHandler]
    | missing => simp [onTokensHandler]
    | unparsable => simp [onTokensHandler]
    | invalid => simp [onTokensHandler]

/-- Claim C3: a token-update notification carrying only a new access token,
applied to a stored record holding a refresh token, persists the new access
token together with the stored refresh token and leaves every other stored
field (expiry and extras) unchanged. -/
theorem c3_token_update_merge_preserves (cur : TokenRecord) (R X : String)
    (hr : cur.refresh_token = some R) :
    onTokensHandler (.record cur) ⟨some X, none, none, []⟩ =
      ⟨[(⟨some X, some R, cur.expiry_date, cur.extras⟩, tokenFileMode)], []⟩ := by
  simp [onTokensHandler, mergeTokens, overrideField, overrideExtras_nil, truthyStr, hr]

/-- Closed witness for C3: merging a bare new access token over a stored
record keeps its refresh token, expiry and extra fields. -/
theorem c3_token_update_merge_preserves_witness :
    onTokensHandler (.record ⟨some "Y", some "R", some 42, [("scope", "calendar")]⟩)
        ⟨some "X", none, none, []⟩ =
      ⟨[(⟨some "X", some "R", some 42, [("scope", "calendar")]⟩, tokenFileMode)], []⟩ :=
  c3_token_update_merge_preserves ⟨some "Y", some "R", some 42, [("scope", "calendar")]⟩ "R" "X" rfl

/-- Claim C4: for every tool name, whenever the token-validation gate at the
top of the call handler answers false, the handler throws an
authentication-required error that is either the interactive message (naming
the callback URL) or the headless manual-authorization instruction, and no
calendar API operation is performed. -/
theorem c4_gate_blocks_unauthenticated_calls (authServerConstructed : Bool)
    (boundPort : Nat) (name : String) :
    (handleCallTool false authServerConstructed boundPort name).calendarOps = [] ∧
    (handleCallTool false authServerConstructed boundPort name).error
      = some (authRequiredMessage authServerConstructed boundPort) ∧
    (authRequiredMessage authServerConstructed boundPort = interactiveAuthMessage 3000 ∨
      authRequiredMessage authServerConstructed boundPort = headlessAuthMessage) := by
  refine ⟨rfl, rfl, ?_⟩
  cases authServerConstructed with
  | true => exact Or.inl rfl
  | false => exact Or.inr rfl

/-- Counterexample for C1 as stated: a stored record carrying
`refresh_token = some "original-refresh"`, expired at the read time, is
refreshed with a response that omits the refresh token; the single persisted
write is the refresh response verbatim, so the persisted record's
`refresh_token` is `none` and the stored extras are gone — the original
refresh token is silently dropped from the persisted file. -/
theorem c1_refresh_token_dropped_cex :
    isExpiredCheck ⟨some "old-access", some "original-refresh", some 1000, [("scope", "calendar")]⟩ 1000000 = true ∧
    hasRefreshToken ⟨some "old-access", some "original-refresh", some 1000, [("scope", "calendar")]⟩ = true ∧
    (loadSavedTokens
        (.record ⟨some "old-access", some "original-refresh", some 1000, [("scope", "calendar")]⟩)
        1000000
        (some ⟨some "new-access", none, some 2000000, []⟩)).writes
      = [(⟨some "new-access", none, some 2000000, []⟩, tokenFileMode)] ∧
    (⟨some "new-access", none, some 2000000, []⟩ : TokenRecord).refresh_token = none := by
  decide

/-- Claim C1 (amended): when a loaded credential is within the 5-minute
margin with a refresh token present and the refresh succeeds, the load path
persists exactly the refresh response (with mode `0o600`) and installs it;
the previously stored `refresh_token` and other stored fields are retained
only insofar as the refresh response itself carries them — the write is the
response verbatim, not a merge with the stored record. -/
theorem c1_refresh_persists_response_verbatim (t nt : TokenRecord) (now : Int)
    (hexp : isExpiredCheck t now = true) (hr : hasRefreshToken t = true)
    (ha : truthyStr nt.access_token = true) :
    loadSavedTokens (.record t) now (some nt)
      = ⟨true, [(nt, tokenFileMode)], 1, [t, nt], []⟩ := by
  simp [loadSavedTokens, hexp, hr, ha]

/-- Closed witness for C1 (amended) at a concrete expired record and
refresh response. -/
theorem c1_refresh_persists_response_verbatim_witness :
    loadSavedTokens (.record ⟨some "a", some "r", some 1, []⟩) 1000000
        (some ⟨some "b", some "r2", some 99, []⟩)
      = ⟨true, [(⟨some "b", some "r2", some 99, []⟩, tokenFileMode)], 1,
         [⟨some "a", some "r", some 1, []⟩, ⟨some "b", some "r2", some 99, []⟩], []⟩ :=
  c1_refresh_persists_response_verbatim _ _ 1000000 (by decide) (by decide) (by decide)

/-- Counterexample for C2 as stated: a loaded record that is expired and
carries no refresh token is nevertheless installed and `loadSavedTokens`
returns true — not false as the claim requires. -/
theorem c2_expired_no_refresh_returns_true_cex :
    isExpiredCheck ⟨some "stale", none, some 1, []⟩ 1000000 = true ∧
    hasRefreshToken ⟨some "stale", none, some 1, []⟩ = false ∧
    (loadSavedTokens (.record ⟨some "stale", none, some 1, []⟩) 1000000 none).ok = true := by
  decide

/-- Claim C2 (amended): for a loaded record that is expired (or within the
margin), the operation returns false whenever a refresh is attempted and
fails; but a record carrying no refresh token is installed as-is and the
operation returns true even though the credential is expired. -/
theorem c2_load_ok_semantics (t : TokenRecord) (now : Int) (rr : Option TokenRecord)
    (hexp : isExpiredCheck t now = true) :
    (hasRefreshToken t = true → refreshSucceeds rr = false →
      (loadSavedTokens (.record t) now rr).ok = false) ∧
    (hasRefreshToken t = false →
      (loadSavedTokens (.record t) now rr).ok = true) := by
  constructor
  · intro hr hf
    cases rr with
    | none => simp [loadSavedTokens, hexp, hr]
    | some nt =>
      have ha : truthyStr nt.access_token = false := by
        simpa [refreshSucceeds] using hf
      simp [loadSavedTokens, hexp, hr, ha]
  · intro hr
    simp [loadSavedTokens, hexp, hr]

/-- Closed witness for C2 (amended): a failed refresh yields false; an
expired record with no refresh token yields true. -/
theorem c2_load_ok_semantics_witness :
    (loadSavedTokens (.record ⟨some "a", some "r", some 1, []⟩) 1000000 none).ok = false ∧
    (loadSavedTokens (.record ⟨some "a", none, some 1, []⟩) 1000000 none).ok = true :=
  ⟨(c2_load_ok_semantics ⟨some "a", some "r", some 1, []⟩ 1000000 none (by decide)).1
      (by decide) (by decide),
   (c2_load_ok_semantics ⟨some "a", none, some 1, []⟩ 1000000 none (by decide)).2
      (by decide)⟩

/-- Claim C5: under a nonnegative clock, the load path refreshes exactly
when the record is expired or within the 5-minute margin
(`e - 300000 ≤ now`) and a refresh token is present; on refresh success it
persists the new token with mode `0o600`, installs it, and returns true; on
refresh failure (rejected call or response without an access token) it
returns false with no write, without throwing. -/
theorem c5_refresh_trigger_and_outcomes (t : TokenRecord) (e now : Int)
    (rr : Option TokenRecord) (he : t.expiry_date = some e) (hnow : 0 ≤ now) :
    ((loadSavedTokens (.record t) now rr).refreshCalls = 1 ↔
      (e - 5 * 60 * 1000 ≤ now ∧ hasRefreshToken t = true)) ∧
    (e - 5 * 60 * 1000 ≤ now → hasRefreshToken t = true →
      ((∀ nt, rr = some nt → truthyStr nt.access_token = true →
          loadSavedTokens (.record t) now rr
            = ⟨true, [(nt, tokenFileMode)], 1, [t, nt], []⟩) ∧
       (refreshSucceeds rr = false →
          loadSavedTokens (.record t) now rr
            = ⟨false, [], 1, [t], ["Error refreshing auth token:"]⟩))) := by
  have hx := isExpiredCheck_some t e now he hnow
  by_cases hexp : e - 5 * 60 * 1000 ≤ now
  · have hxt : isExpiredCheck t now = true := by rw [hx]; simp; omega
    by_cases hr : hasRefreshToken t
    · refine ⟨⟨fun _ => ⟨hexp, hr⟩, fun _ => ?_⟩, fun _ _ => ⟨?_, ?_⟩⟩
      · cases rr with
        | none => simp [loadSavedTokens, hxt, hr]
        | some nt =>
          by_cases ha : truthyStr nt.access_token <;>
            simp [loadSavedTokens, hxt, hr, ha]
      · intro nt hnt ha
        subst hnt
        simp [loadSavedTokens, hxt, hr, ha]
      · intro hf
        cases rr with
        | none => simp [loadSavedTokens, hxt, hr]
        | some nt =>
          have ha : truthyStr nt.access_token = false := by
            simpa [refreshSucceeds] using hf
          simp [loadSavedTokens, hxt, hr, ha]
    · have hr' : hasRefreshToken t = false := by simpa using hr
      refine ⟨?_, fun _ hcontra => absurd hcontra (by simp [hr'])⟩
      simp [loadSavedTokens, hxt, hr']
  · have hxf : isExpiredCheck t now = false := by rw [hx]; simp; omega
    refine ⟨?_, fun hcontra => absurd hcontra hexp⟩
    simp [loadSavedTokens, hxf]
    intro h
    exact absurd (by omega : e - 5 * 60 * 1000 ≤ now) hexp

/-- Closed witness for C5: an expired record with a refresh token plus a
successful refresh response gives exactly one refresh call, a mode-`0o600`
write of the response, and true. -/
theorem c5_refresh_trigger_and_outcomes_witness :
    (loadSavedTokens (.record ⟨some "a", some "r", some 600000, []⟩) 400000
        (some ⟨some "b", none, some 999, []⟩)).refreshCalls = 1 ∧
    loadSavedTokens (.record ⟨some "a", some "r", some 600000, []⟩) 400000
        (some ⟨some "b", none, some 999, []⟩)
      = ⟨true, [(⟨some "b", none, some 999, []⟩, tokenFileMode)], 1,
         [⟨some "a", some "r", some 600000, []⟩, ⟨some "b", none, some 999, []⟩], []⟩ := by
  have h := c5_refresh_trigger_and_outcomes ⟨some "a", some "r", some 600000, []⟩
    600000 400000 (some ⟨some "b", none, some 999, []⟩) rfl (by decide)
  exact ⟨h.1.mpr ⟨by decide, by decide⟩,
    (h.2 (by decide) (by decide)).1 ⟨some "b", none, some 999, []⟩ rfl (by decide)⟩

set_option maxRecDepth 4096 in
/-- Claim C10: every successful startup constructs the auth server object
before the token check, so the tool-call gate's failure message is always
the interactive one naming `http://localhost:3000` — whatever port the auth
server actually bound — and the headless branch is unreachable. -/
theorem c10_auth_message_always_port_3000 (configOk loadOk authStartOk : Bool) (s : Bool)
    (hs : mainStartup configOk loadOk authStartOk = some s) :
    s = true ∧
    (∀ (boundPort : Nat) (name : String),
      (handleCallTool false s boundPort name).error = some (interactiveAuthMessage 3000) ∧
      authRequiredMessage s boundPort ≠ headlessAuthMessage) ∧
    interactiveAuthMessage 3000
      = "Authentication required. Please visit http://localhost:3000 to authenticate with Google Calendar. If this port is unavailable, the server will try ports 3001-3004." := by
  have hst : s = true := by
    cases configOk <;> cases loadOk <;> cases authStartOk <;>
      simp [mainStartup] at hs <;> simp [hs]
  subst hst
  refine ⟨rfl, fun boundPort name => ⟨rfl, ?_⟩, rfl⟩
  show interactiveAuthMessage 3000 ≠ headlessAuthMessage
  decide

/-- Closed witness for C10: a startup that fell back to the auth server
(on any of its candidate ports, here 3002) still tells the user to visit
port 3000. -/
theorem c10_auth_message_always_port_3000_witness :
    mainStartup true false true = some true ∧
    (handleCallTool false true 3002 "list-events").error
      = some (interactiveAuthMessage 3000) :=
  ⟨rfl, ((c10_auth_message_always_port_3000 true false true true rfl).2.1 3002 "list-events").1⟩

end GCalMcp
